import Mathlib

/-!
Shallow embedding of the virtio-MMIO block driver (`src/block.rs`):
the device-initialization handshake `init` and the sector-read engine
`read`, together with an event trace recording MMIO accesses, queue-memory
writes and memory fences in program order.
-/

namespace VirtioBlock

/-- Truncation to an unsigned 32-bit value, as performed by `as u32`. -/
def U32 (n : Nat) : Nat := n % 4294967296

/-- Memory-ordering constants, mirroring `core::sync::atomic::Ordering`. -/
inductive MemOrd
  | Acquire
  | Release
  | AcqRel
  | SeqCst
deriving DecidableEq

/-- Driver-side memory locations inside the queue memory layout. -/
inductive Loc
  | descAddr (i : Nat)
  | descLen (i : Nat)
  | descFlags (i : Nat)
  | descNext (i : Nat)
  | availFlags
  | availIdx
  | availRing (i : Nat)
  | usedFlags
  | usedIdx
  | usedRing (i : Nat)
  | nextHead
deriving DecidableEq

/-- Observable events of the driver, in program order. -/
inductive Ev
  | ioRead (off val : Nat)
  | ioWrite (off val : Nat)
  | fence (ord : MemOrd)
  | memWrite (loc : Loc) (val : Nat)
deriving DecidableEq

/-- The driver's error enumeration (`enum Error` in `block.rs`). -/
inductive Error
  | VirtioMagicInvalid
  | VirtioVersionInvalid
  | VirtioUnsupportedDevice
  | VirtioLegacyOnly
  | VirtioFeatureNegotiationFailed
  | VirtioQueueTooSmall
  | BlockIOError
  | BlockNotSupported
deriving DecidableEq

/-- The MMIO device's register file as seen and mutated through
`io_read_u32`/`io_write_u32`.  The fields `magic` … `queueMax` are the
device-chosen contents of the read-only probe registers;
`featuresOkAccepted` models whether the device accepts the FEATURES_OK
status bit (a rejecting device clears that bit when status is written).
The remaining fields hold the last value the driver wrote to each
writable register. -/
structure DeviceRegs where
  magic : Nat
  version : Nat
  deviceType : Nat
  featuresLow : Nat
  featuresHigh : Nat
  queueMax : Nat
  featuresOkAccepted : Bool
  status : Nat
  featSel : Nat
  driverFeatSel : Nat
  driverFeatLow : Nat
  driverFeatHigh : Nat
  queueSel : Nat
  queueSizeReg : Nat
  queueReady : Nat
  descLow : Nat
  descHigh : Nat
  availLow : Nat
  availHigh : Nat
  usedLow : Nat
  usedHigh : Nat
deriving DecidableEq

/-- Semantics of a 32-bit MMIO register read at byte offset `off`. -/
def readReg (d : DeviceRegs) (off : Nat) : Nat :=
  if off = 0x000 then U32 d.magic
  else if off = 0x004 then U32 d.version
  else if off = 0x008 then U32 d.deviceType
  else if off = 0x010 then
    (if d.featSel = 0 then U32 d.featuresLow
     else if d.featSel = 1 then U32 d.featuresHigh
     else 0)
  else if off = 0x034 then U32 d.queueMax
  else if off = 0x070 then U32 d.status
  else 0

/-- Semantics of a 32-bit MMIO register write at byte offset `off`.
A device that does not accept feature negotiation masks the
FEATURES_OK bit (value 8) out of any written status. -/
def writeReg (d : DeviceRegs) (off v : Nat) : DeviceRegs :=
  let w := U32 v
  if off = 0x014 then { d with featSel := w }
  else if off = 0x024 then { d with driverFeatSel := w }
  else if off = 0x020 then
    (if d.driverFeatSel = 0 then { d with driverFeatLow := w }
     else if d.driverFeatSel = 1 then { d with driverFeatHigh := w }
     else d)
  else if off = 0x030 then { d with queueSel := w }
  else if off = 0x038 then { d with queueSizeReg := w }
  else if off = 0x044 then { d with queueReady := w }
  else if off = 0x070 then
    { d with status := if d.featuresOkAccepted then w else w &&& 0xFFFFFFF7 }
  else if off = 0x080 then { d with descLow := w }
  else if off = 0x084 then { d with descHigh := w }
  else if off = 0x090 then { d with availLow := w }
  else if off = 0x094 then { d with availHigh := w }
  else if off = 0x0a0 then { d with usedLow := w }
  else if off = 0x0a4 then { d with usedHigh := w }
  else d

/-- MMIO-facing state threaded through `init`: the register file plus the
trace of accesses made so far. -/
structure MmioState where
  regs : DeviceRegs
  trace : List Ev

/-- `self.region.io_read_u32(off)` with trace recording. -/
def io_read_u32 (s : MmioState) (off : Nat) : Nat × MmioState :=
  let v := readReg s.regs off
  (v, ⟨s.regs, s.trace ++ [Ev.ioRead off v]⟩)

/-- `self.region.io_write_u32(off, v)` with trace recording. -/
def io_write_u32 (s : MmioState) (off v : Nat) : MmioState :=
  ⟨writeReg s.regs off v, s.trace ++ [Ev.ioWrite off (U32 v)]⟩

/-- `fn get_status(&self) -> u32 { self.region.io_read_u32(0x70) }` -/
def get_status (s : MmioState) : Nat × MmioState := io_read_u32 s 0x70

/-- `fn set_status(&self, value: u32)` -/
def set_status (s : MmioState) (v : Nat) : MmioState := io_write_u32 s 0x70 v

/-- `fn add_status(&self, value: u32)` -/
def add_status (s : MmioState) (v : Nat) : MmioState :=
  let p := get_status s
  set_status p.2 (p.1 ||| v)

/-- Sequencing of handshake phases: `init`'s early `return Err(..)`
stops the remaining phases and keeps the failing phase's device state. -/
def andThen (r : Except Error Unit × MmioState)
    (f : MmioState → Except Error Unit × MmioState) :
    Except Error Unit × MmioState :=
  match r with
  | (.ok _, s) => f s
  | (.error e, s) => (.error e, s)

/-- `init` step 1 (probe): read magic, version and device-type registers,
failing fast on the first mismatch (`block.rs` lines 136-146). -/
def probe (s : MmioState) : Except Error Unit × MmioState :=
  let r1 := io_read_u32 s 0x000
  if r1.1 ≠ 0x74726976 then (.error .VirtioMagicInvalid, r1.2)
  else
  let r2 := io_read_u32 r1.2 0x004
  if r2.1 ≠ 2 then (.error .VirtioVersionInvalid, r2.2)
  else
  let r3 := io_read_u32 r2.2 0x008
  if r3.1 ≠ 2 then (.error .VirtioUnsupportedDevice, r3.2)
  else (.ok (), r3.2)

/-- `init` steps 2-4: reset the device status, then OR in ACKNOWLEDGE (1)
and DRIVER (2) (`block.rs` lines 148-155). -/
def resetAck (s : MmioState) : MmioState :=
  add_status (add_status (set_status s 0) 1) 2

/-- `init` step 5 (feature exchange): read the two 32-bit device-feature
halves, require the VERSION_1 bit (bit 32), write the same bitmap back as
the driver features, OR in FEATURES_OK (8) and re-read the status to
confirm (`block.rs` lines 157-180). -/
def featureExchange (s : MmioState) : Except Error Unit × MmioState :=
  let s7 := io_write_u32 s 0x014 0
  let r8 := io_read_u32 s7 0x010
  let s9 := io_write_u32 r8.2 0x014 1
  let r10 := io_read_u32 s9 0x010
  let device_features := r8.1 ||| (r10.1 <<< 32)
  if device_features &&& (1 <<< 32) ≠ 1 <<< 32 then
    (.error .VirtioLegacyOnly, add_status r10.2 128)
  else
  let s11 := io_write_u32 r10.2 0x024 0
  let driver_features := device_features
  let s12 := io_write_u32 s11 0x020 (U32 driver_features)
  let s13 := io_write_u32 s12 0x024 1
  let s14 := io_write_u32 s13 0x020 (U32 (driver_features >>> 32))
  let s15 := add_status s14 8
  let r16 := get_status s15
  if r16.1 &&& 8 ≠ 8 then
    (.error .VirtioFeatureNegotiationFailed, add_status r16.2 128)
  else (.ok (), r16.2)

/-- `init` step 6 (queue setup): select queue 0, read the maximum queue
size, fail if it is below 16, otherwise write the queue size, the three
queue addresses as low/high pairs, and queue-ready = 1
(`block.rs` lines 182-207). -/
def queueSetup (s : MmioState) (descAddr availAddr usedAddr : Nat) :
    Except Error Unit × MmioState :=
  let s17 := io_write_u32 s 0x030 0
  let r18 := io_read_u32 s17 0x034
  if r18.1 < 16 then
    (.error .VirtioQueueTooSmall, add_status r18.2 128)
  else
  let s19 := io_write_u32 r18.2 0x038 16
  let s20 := io_write_u32 s19 0x080 (U32 descAddr)
  let s21 := io_write_u32 s20 0x084 (U32 (descAddr >>> 32))
  let s22 := io_write_u32 s21 0x090 (U32 availAddr)
  let s23 := io_write_u32 s22 0x094 (U32 (availAddr >>> 32))
  let s24 := io_write_u32 s23 0x0a0 (U32 usedAddr)
  let s25 := io_write_u32 s24 0x0a4 (U32 (usedAddr >>> 32))
  let s26 := io_write_u32 s25 0x044 1
  (.ok (), s26)

/-- `VirtioMMIOBlockDevice::init`: the phases in source order, ending
with step 7 (OR in DRIVER_OK, 4).  `descAddr`, `availAddr` and `usedAddr`
stand for the addresses of the descriptor table, the available ring and
the used ring taken in the source from `self`. -/
def init (d0 : DeviceRegs) (descAddr availAddr usedAddr : Nat) :
    Except Error Unit × MmioState :=
  andThen (probe ⟨d0, []⟩) fun sp =>
  andThen (featureExchange (resetAck sp)) fun sf =>
  andThen (queueSetup sf descAddr availAddr usedAddr) fun sq =>
  (.ok (), add_status sq 4)

/-- A virtio queue entry descriptor (`struct Desc`). -/
structure Desc where
  addr : Nat
  length : Nat
  flags : Nat
  next : Nat
deriving DecidableEq

/-- The virtio available ring (`struct AvailRing`), queue size 16. -/
structure AvailRing where
  flags : Nat
  idx : Nat
  ring : Fin 16 → Nat

/-- A single element in the used ring (`struct UsedElem`). -/
structure UsedElem where
  id : Nat
  len : Nat
deriving DecidableEq

/-- The virtio used ring (`struct UsedRing`). -/
structure UsedRing where
  flags : Nat
  idx : Nat
  ring : Fin 16 → UsedElem

/-- Driver-owned state of `struct VirtioMMIOBlockDevice` that `read`
mutates: the descriptor table, the two rings and the `next_head`
cursor. -/
structure VirtioMMIOBlockDevice where
  descriptors : Fin 16 → Desc
  avail : AvailRing
  used : UsedRing
  next_head : Nat

/-- Reduction of an index into the 16-entry queue, as performed by
`% QUEUE_SIZE` in the source. -/
def idx16 (n : Nat) : Fin 16 := ⟨n % 16, Nat.mod_lt n (by omega)⟩

/-- Device-controlled inputs of one `read` call: the stack addresses of
the request header, the caller's data buffer and the request footer, the
status byte the device writes into the footer before completion, and the
number of poll-loop iterations executed before `used.idx` catches up with
`avail.idx`. -/
structure ReadEnv where
  headerAddr : Nat
  dataAddr : Nat
  footerAddr : Nat
  statusByte : Nat
  pollIters : Nat

/-- `<VirtioMMIOBlockDevice as SectorRead>::read`, driver side.
Returns `none` in the first component when the `assert_eq!(512,
data.len())` panics; in that case no register is touched, no queue memory
is written and the driver state is unchanged.  Otherwise returns the
result of the status-byte match, the mutated driver state, and the trace
of queue-memory writes, fences and MMIO accesses in program order.  The
footer status byte is device-written and therefore taken from `env`
(reduced to a byte, as the field is a `u8`). -/
def read (dev : VirtioMMIOBlockDevice) (env : ReadEnv)
    (sector dataLen : Nat) :
    Option (Except Error Unit) × VirtioMMIOBlockDevice × List Ev :=
  if dataLen ≠ 512 then (none, dev, [])
  else
    let h := idx16 dev.next_head
    let n1 := idx16 (dev.next_head + 1)
    let d1 : Desc := ⟨env.headerAddr, 16, 1, n1.val⟩
    let n2 := idx16 (n1.val + 1)
    let d2 : Desc := ⟨env.dataAddr, 512, 1 ||| 2, n2.val⟩
    let d3 : Desc := ⟨env.footerAddr, 1, 2, 0⟩
    let descs :=
      Function.update (Function.update (Function.update dev.descriptors h d1) n1 d2) n2 d3
    let slot := idx16 dev.avail.idx
    let headVal := dev.next_head % 65536
    let ring2 := Function.update dev.avail.ring slot headVal
    let newIdx := (dev.avail.idx + 1) % 65536
    let newHead := (n2.val + 1) % 16
    let dev2 : VirtioMMIOBlockDevice :=
      { descriptors := descs
        avail := ⟨dev.avail.flags, newIdx, ring2⟩
        used := dev.used
        next_head := newHead }
    let tr : List Ev :=
      [Ev.memWrite (Loc.descAddr h.val) env.headerAddr,
       Ev.memWrite (Loc.descLen h.val) 16,
       Ev.memWrite (Loc.descFlags h.val) 1,
       Ev.memWrite (Loc.descNext h.val) n1.val,
       Ev.memWrite (Loc.descAddr n1.val) env.dataAddr,
       Ev.memWrite (Loc.descLen n1.val) 512,
       Ev.memWrite (Loc.descFlags n1.val) (1 ||| 2),
       Ev.memWrite (Loc.descNext n1.val) n2.val,
       Ev.memWrite (Loc.descAddr n2.val) env.footerAddr,
       Ev.memWrite (Loc.descLen n2.val) 1,
       Ev.memWrite (Loc.descFlags n2.val) 2,
       Ev.memWrite (Loc.descNext n2.val) 0,
       Ev.memWrite (Loc.availRing slot.val) headVal,
       Ev.fence .Acquire,
       Ev.memWrite Loc.availIdx newIdx,
       Ev.memWrite Loc.nextHead newHead,
       Ev.ioWrite 0x50 0]
      ++ List.replicate env.pollIters (Ev.fence .Acquire)
    let res : Except Error Unit :=
      match env.statusByte % 256 with
      | 0 => .ok ()
      | 1 => .error .BlockIOError
      | 2 => .error .BlockNotSupported
      | _ => .error .BlockNotSupported
    (some res, dev2, tr)

/-- Iterated sequential reads: `readIter env sector n dev` performs `n`
consecutive successful 512-byte reads starting from `dev`. -/
def readIter (env : ReadEnv) (sector : Nat) :
    Nat → VirtioMMIOBlockDevice → VirtioMMIOBlockDevice
  | 0, dev => dev
  | n + 1, dev => readIter env sector n (read dev env sector 512).2.1

/-- The all-zero driver state `VirtioMMIOBlockDevice::default()`:
zeroed descriptor table and rings, `next_head = 0`. -/
def dev0 : VirtioMMIOBlockDevice :=
  { descriptors := fun _ => ⟨0, 0, 0, 0⟩
    avail := ⟨0, 0, fun _ => 0⟩
    used := ⟨0, 0, fun _ => ⟨0, 0⟩⟩
    next_head := 0 }

/-- A concrete device environment for witnesses: all addresses zero,
status byte 0, no poll iterations. -/
def env0 : ReadEnv := ⟨0, 0, 0, 0, 0⟩

/-- A device environment with three poll-loop iterations. -/
def env3 : ReadEnv := ⟨0, 0, 0, 0, 3⟩

/-- `true` iff the trace contains no MMIO write to register offset `off`. -/
def noIoWrite (t : List Ev) (off : Nat) : Bool :=
  t.all fun e =>
    match e with
    | .ioWrite o _ => decide (o ≠ off)
    | _ => true

/-- The six queue-address register offsets (low/high pairs for the
descriptor table, the available ring and the used ring). -/
def queueAddrOffs : List Nat := [0x080, 0x084, 0x090, 0x094, 0x0a0, 0x0a4]

/-- `true` iff the trace contains no write to any queue-address register. -/
def noQueueAddrWrites (t : List Ev) : Bool := queueAddrOffs.all (noIoWrite t)

/-- `true` iff the trace contains no driver write to any used-ring field. -/
def noUsedWrites (t : List Ev) : Bool :=
  t.all fun e =>
    match e with
    | .memWrite .usedFlags _ => false
    | .memWrite .usedIdx _ => false
    | .memWrite (.usedRing _) _ => false
    | _ => true

/-- The status-byte policy as the specification states it: byte 0 is
success, byte 1 is `BlockIOError`, byte 2 is `BlockNotSupported`, and
every other byte value is also `BlockNotSupported`. -/
def statusResult (b : Nat) : Except Error Unit :=
  if b % 256 = 0 then .ok ()
  else if b % 256 = 1 then .error .BlockIOError
  else .error .BlockNotSupported

/-- A device register file that passes the whole handshake: correct
magic, version 2, device type 2, VERSION_1 feature bit set (high feature
half has bit 0), max queue size 16, features accepted. -/
def cfgGood : DeviceRegs :=
  ⟨0x74726976, 2, 2, 0, 1, 16, true, 0, 0, 0, 0, 0, 0, 0, 0, 0, 0, 0, 0, 0, 0⟩

/-- `cfgGood` with a wrong magic value. -/
def cfgBadMagic : DeviceRegs := { cfgGood with magic := 5 }

/-- `cfgGood` with the VERSION_1 feature bit clear (legacy-only device). -/
def cfgLegacy : DeviceRegs := { cfgGood with featuresHigh := 0 }

/-- `cfgGood` with a device that rejects the FEATURES_OK status bit. -/
def cfgReject : DeviceRegs := { cfgGood with featuresOkAccepted := false }

/-- `cfgGood` with a maximum queue size below 16. -/
def cfgSmallQueue : DeviceRegs := { cfgGood with queueMax := 8 }

/-- The 64-bit device feature bitmap `init` assembles from the two
32-bit halves read with feature-select 0 and 1. -/
def feats (d : DeviceRegs) : Nat :=
  U32 d.featuresLow ||| (U32 d.featuresHigh <<< 32)

end VirtioBlock

namespace VirtioBlock

theorem U32_U32 (n : Nat) : U32 (U32 n) = U32 n :=
  Nat.mod_mod_of_dvd n dvd_rfl

theorem andThen_ok (s : MmioState)
    (f : MmioState → Except Error Unit × MmioState) :
    andThen (.ok (), s) f = f s := rfl

theorem andThen_error (e : Error) (s : MmioState)
    (f : MmioState → Except Error Unit × MmioState) :
    andThen (.error e, s) f = (.error e, s) := rfl

theorem probe_magic_fail (d : DeviceRegs) (t : List Ev)
    (h : U32 d.magic ≠ 0x74726976) :
    probe ⟨d, t⟩ = (.error .VirtioMagicInvalid,
      ⟨d, t ++ [Ev.ioRead 0x000 (U32 d.magic)]⟩) := by
  simp [probe, io_read_u32, readReg, h]

theorem probe_version_fail (d : DeviceRegs) (t : List Ev)
    (hm : U32 d.magic = 0x74726976) (h : U32 d.version ≠ 2) :
    probe ⟨d, t⟩ = (.error .VirtioVersionInvalid,
      ⟨d, t ++ [Ev.ioRead 0x000 0x74726976,
        Ev.ioRead 0x004 (U32 d.version)]⟩) := by
  simp [probe, io_read_u32, readReg, hm, h]

theorem probe_type_fail (d : DeviceRegs) (t : List Ev)
    (hm : U32 d.magic = 0x74726976) (hv : U32 d.version = 2)
    (h : U32 d.deviceType ≠ 2) :
    probe ⟨d, t⟩ = (.error .VirtioUnsupportedDevice,
      ⟨d, t ++ [Ev.ioRead 0x000 0x74726976, Ev.ioRead 0x004 2,
        Ev.ioRead 0x008 (U32 d.deviceType)]⟩) := by
  simp [probe, io_read_u32, readReg, hm, hv, h]

theorem probe_ok (d : DeviceRegs) (t : List Ev)
    (hm : U32 d.magic = 0x74726976) (hv : U32 d.version = 2)
    (hd : U32 d.deviceType = 2) :
    probe ⟨d, t⟩ = (.ok (), ⟨d, t ++ [Ev.ioRead 0x000 0x74726976,
      Ev.ioRead 0x004 2, Ev.ioRead 0x008 2]⟩) := by
  simp [probe, io_read_u32, readReg, hm, hv, hd]

theorem resetAck_eq (d : DeviceRegs) (t : List Ev) :
    resetAck ⟨d, t⟩ = ⟨{ d with status := 3 },
      t ++ [Ev.ioWrite 0x070 0, Ev.ioRead 0x070 0, Ev.ioWrite 0x070 1,
        Ev.ioRead 0x070 1, Ev.ioWrite 0x070 3]⟩ := by
  simp [resetAck, add_status, get_status, set_status, io_read_u32,
    io_write_u32, readReg, writeReg, U32]
  exact fun _ => by decide

theorem featureExchange_legacy (d : DeviceRegs) (t : List Ev)
    (hst : d.status = 3) (hbit : feats d &&& (1 <<< 32) ≠ 1 <<< 32) :
    featureExchange ⟨d, t⟩ = (.error .VirtioLegacyOnly,
      ⟨{ d with
           featSel := 1,
           status := 131 },
       t ++ [Ev.ioWrite 0x014 0, Ev.ioRead 0x010 (U32 d.featuresLow),
         Ev.ioWrite 0x014 1, Ev.ioRead 0x010 (U32 d.featuresHigh),
         Ev.ioRead 0x070 3, Ev.ioWrite 0x070 131]⟩) := by
  rw [feats, show (1 <<< 32 : Nat) = 4294967296 from rfl] at hbit
  simp [featureExchange, add_status, get_status, set_status, io_read_u32,
    io_write_u32, readReg, writeReg, U32_U32, hst, hbit,
    (by decide : U32 0 = 0), (by decide : U32 1 = 1),
    (by decide : U32 3 = 3), (by decide : (3 ||| 128 : Nat) = 131),
    (by decide : U32 131 = 131),
    (by decide : (131 &&& 4294967287 : Nat) = 131)]

theorem featureExchange_accepted (d : DeviceRegs) (t : List Ev)
    (hst : d.status = 3) (hacc : d.featuresOkAccepted = true)
    (hbit : feats d &&& (1 <<< 32) = 1 <<< 32) :
    featureExchange ⟨d, t⟩ = (.ok (),
      ⟨{ d with
           featSel := 1,
           driverFeatSel := 1,
           driverFeatLow := U32 (feats d),
           driverFeatHigh := U32 (feats d >>> 32),
           status := 11 },
       t ++ [Ev.ioWrite 0x014 0, Ev.ioRead 0x010 (U32 d.featuresLow),
         Ev.ioWrite 0x014 1, Ev.ioRead 0x010 (U32 d.featuresHigh),
         Ev.ioWrite 0x024 0, Ev.ioWrite 0x020 (U32 (feats d)),
         Ev.ioWrite 0x024 1, Ev.ioWrite 0x020 (U32 (feats d >>> 32)),
         Ev.ioRead 0x070 3, Ev.ioWrite 0x070 11, Ev.ioRead 0x070 11]⟩) := by
  rw [feats, show (1 <<< 32 : Nat) = 4294967296 from rfl] at hbit
  simp [featureExchange, add_status, get_status, set_status, io_read_u32,
    io_write_u32, readReg, writeReg, U32_U32, feats, hst, hacc, hbit,
    (by decide : U32 0 = 0), (by decide : U32 1 = 1),
    (by decide : U32 3 = 3), (by decide : (3 ||| 8 : Nat) = 11),
    (by decide : U32 11 = 11), (by decide : (11 &&& 8 : Nat) = 8)]

theorem featureExchange_rejected (d : DeviceRegs) (t : List Ev)
    (hst : d.status = 3) (hacc : d.featuresOkAccepted = false)
    (hbit : feats d &&& (1 <<< 32) = 1 <<< 32) :
    featureExchange ⟨d, t⟩ = (.error .VirtioFeatureNegotiationFailed,
      ⟨{ d with
           featSel := 1,
           driverFeatSel := 1,
           driverFeatLow := U32 (feats d),
           driverFeatHigh := U32 (feats d >>> 32),
           status := 131 },
       t ++ [Ev.ioWrite 0x014 0, Ev.ioRead 0x010 (U32 d.featuresLow),
         Ev.ioWrite 0x014 1, Ev.ioRead 0x010 (U32 d.featuresHigh),
         Ev.ioWrite 0x024 0, Ev.ioWrite 0x020 (U32 (feats d)),
         Ev.ioWrite 0x024 1, Ev.ioWrite 0x020 (U32 (feats d >>> 32)),
         Ev.ioRead 0x070 3, Ev.ioWrite 0x070 11, Ev.ioRead 0x070 3,
         Ev.ioRead 0x070 3, Ev.ioWrite 0x070 131]⟩) := by
  rw [feats, show (1 <<< 32 : Nat) = 4294967296 from rfl] at hbit
  simp [featureExchange, add_status, get_status, set_status, io_read_u32,
    io_write_u32, readReg, writeReg, U32_U32, feats, hst, hacc, hbit,
    (by decide : U32 0 = 0), (by decide : U32 1 = 1),
    (by decide : U32 3 = 3), (by decide : (3 ||| 8 : Nat) = 11),
    (by decide : U32 11 = 11), (by decide : (11 &&& 4294967287 : Nat) = 3),
    (by decide : (3 &&& 8 : Nat) = 0), (by decide : (3 ||| 128 : Nat) = 131),
    (by decide : U32 131 = 131),
    (by decide : (131 &&& 4294967287 : Nat) = 131)]

theorem queueSetup_small (d : DeviceRegs) (t : List Ev) (a b c : Nat)
    (hst : d.status = 11) (hacc : d.featuresOkAccepted = true)
    (hq : U32 d.queueMax < 16) :
    queueSetup ⟨d, t⟩ a b c = (.error .VirtioQueueTooSmall,
      ⟨{ d with
           queueSel := 0,
           status := 139 },
       t ++ [Ev.ioWrite 0x030 0, Ev.ioRead 0x034 (U32 d.queueMax),
         Ev.ioRead 0x070 11, Ev.ioWrite 0x070 139]⟩) := by
  simp [queueSetup, add_status, get_status, set_status, io_read_u32,
    io_write_u32, readReg, writeReg, U32_U32, hst, hacc, hq,
    (by decide : U32 0 = 0), (by decide : U32 11 = 11),
    (by decide : (11 ||| 128 : Nat) = 139), (by decide : U32 139 = 139)]

theorem queueSetup_ok (d : DeviceRegs) (t : List Ev) (a b c : Nat)
    (hq : ¬ U32 d.queueMax < 16) :
    queueSetup ⟨d, t⟩ a b c = (.ok (),
      ⟨{ d with
           queueSel := 0,
           queueSizeReg := 16,
           descLow := U32 a,
           descHigh := U32 (a >>> 32),
           availLow := U32 b,
           availHigh := U32 (b >>> 32),
           usedLow := U32 c,
           usedHigh := U32 (c >>> 32),
           queueReady := 1 },
       t ++ [Ev.ioWrite 0x030 0, Ev.ioRead 0x034 (U32 d.queueMax),
         Ev.ioWrite 0x038 16, Ev.ioWrite 0x080 (U32 a),
         Ev.ioWrite 0x084 (U32 (a >>> 32)), Ev.ioWrite 0x090 (U32 b),
         Ev.ioWrite 0x094 (U32 (b >>> 32)), Ev.ioWrite 0x0a0 (U32 c),
         Ev.ioWrite 0x0a4 (U32 (c >>> 32)), Ev.ioWrite 0x044 1]⟩) := by
  simp [queueSetup, io_read_u32, io_write_u32, readReg, writeReg,
    U32_U32, hq, (by decide : U32 0 = 0), (by decide : U32 1 = 1),
    (by decide : U32 16 = 16)]

end VirtioBlock

namespace VirtioBlock

theorem init_after_probe (d0 : DeviceRegs) (a b c : Nat)
    (hm : U32 d0.magic = 0x74726976) (hv : U32 d0.version = 2)
    (hd : U32 d0.deviceType = 2) :
    (init d0 a b c).1 = .error .VirtioLegacyOnly ∨
    (init d0 a b c).1 = .error .VirtioFeatureNegotiationFailed ∨
    (init d0 a b c).1 = .error .VirtioQueueTooSmall ∨
    (init d0 a b c).1 = .ok () := by
  simp only [init]
  rw [probe_ok d0 [] hm hv hd, andThen_ok]
  rw [resetAck_eq]
  by_cases hbit : feats d0 &&& (1 <<< 32) = 1 <<< 32
  · cases hacc : d0.featuresOkAccepted
    · rw [featureExchange_rejected _ _ (by rfl) (by rfl) (by exact hbit), andThen_error]
      simp
    · rw [featureExchange_accepted _ _ (by rfl) (by rfl) (by exact hbit), andThen_ok]
      by_cases hq : U32 d0.queueMax < 16
      · rw [queueSetup_small _ _ _ _ _ (by rfl) (by rfl) (by exact hq), andThen_error]
        simp
      · rw [queueSetup_ok _ _ _ _ _ (by exact hq), andThen_ok]
        simp
  · rw [featureExchange_legacy _ _ (by rfl) (by exact hbit), andThen_error]
    simp

end VirtioBlock

namespace VirtioBlock

/-- Claim C4: `init` checks magic (0x000), version (0x004) and device-type
(0x008) in that order against 0x74726976, 2 and 2, returns the specific
error for the first mismatch with no status write and no queue-address
write, and proceeds past the probe iff all three match. -/
theorem init_probe_checks (d0 : DeviceRegs) (a b c : Nat) :
    (U32 d0.magic ≠ 0x74726976 →
        (init d0 a b c).1 = .error .VirtioMagicInvalid ∧
        noIoWrite (init d0 a b c).2.trace 0x70 = true ∧
        noQueueAddrWrites (init d0 a b c).2.trace = true) ∧
    (U32 d0.magic = 0x74726976 → U32 d0.version ≠ 2 →
        (init d0 a b c).1 = .error .VirtioVersionInvalid ∧
        noIoWrite (init d0 a b c).2.trace 0x70 = true ∧
        noQueueAddrWrites (init d0 a b c).2.trace = true) ∧
    (U32 d0.magic = 0x74726976 → U32 d0.version = 2 → U32 d0.deviceType ≠ 2 →
        (init d0 a b c).1 = .error .VirtioUnsupportedDevice ∧
        noIoWrite (init d0 a b c).2.trace 0x70 = true ∧
        noQueueAddrWrites (init d0 a b c).2.trace = true) ∧
    (((init d0 a b c).1 ≠ .error .VirtioMagicInvalid ∧
      (init d0 a b c).1 ≠ .error .VirtioVersionInvalid ∧
      (init d0 a b c).1 ≠ .error .VirtioUnsupportedDevice) ↔
      (U32 d0.magic = 0x74726976 ∧ U32 d0.version = 2 ∧
       U32 d0.deviceType = 2)) := by
  refine ⟨?_, ?_, ?_, ?_⟩
  · intro h
    simp only [init]
    rw [probe_magic_fail d0 [] h, andThen_error]
    exact ⟨rfl, rfl, rfl⟩
  · intro hm hv
    simp only [init]
    rw [probe_version_fail d0 [] hm hv, andThen_error]
    exact ⟨rfl, rfl, rfl⟩
  · intro hm hv hd
    simp only [init]
    rw [probe_type_fail d0 [] hm hv hd, andThen_error]
    exact ⟨rfl, rfl, rfl⟩
  · constructor
    · rintro ⟨h1, h2, h3⟩
      by_cases hm : U32 d0.magic = 0x74726976
      · by_cases hv : U32 d0.version = 2
        · by_cases hd : U32 d0.deviceType = 2
          · exact ⟨hm, hv, hd⟩
          · refine absurd ?_ h3
            simp only [init]
            rw [probe_type_fail d0 [] hm hv hd, andThen_error]
        · refine absurd ?_ h2
          simp only [init]
          rw [probe_version_fail d0 [] hm hv, andThen_error]
      · refine absurd ?_ h1
        simp only [init]
        rw [probe_magic_fail d0 [] hm, andThen_error]
    · rintro ⟨hm, hv, hd⟩
      rcases init_after_probe d0 a b c hm hv hd with h | h | h | h <;>
        simp [h]

/-- Witness for the C4 theorem at a device with a bad magic value. -/
theorem init_probe_checks_witness :
    (init cfgBadMagic 0 0 0).1 = .error .VirtioMagicInvalid ∧
    noIoWrite (init cfgBadMagic 0 0 0).2.trace 0x70 = true ∧
    noQueueAddrWrites (init cfgBadMagic 0 0 0).2.trace = true :=
  (init_probe_checks cfgBadMagic 0 0 0).1 (by decide)

/-- Claim C1 counterexample: a device with a wrong magic value makes `init`
return `VirtioMagicInvalid` with no status write at all — the FAILED
bit (128) is not set, contradicting the claim that every `init` error
sets it before returning. -/
theorem init_magic_fail_no_failed_bit :
    (init cfgBadMagic 0 0 0).1 = .error .VirtioMagicInvalid ∧
    (init cfgBadMagic 0 0 0).2.regs.status &&& 128 = 0 ∧
    noIoWrite (init cfgBadMagic 0 0 0).2.trace 0x70 = true :=
  ⟨rfl, by decide, by decide⟩

/-- Claim C1 (amended): the FAILED status bit (128) is set before returning on
the `VirtioLegacyOnly`, `VirtioFeatureNegotiationFailed` and
`VirtioQueueTooSmall` failure paths; the three probe failures return
without any status-register write. -/
theorem init_failed_bit (d0 : DeviceRegs) (a b c : Nat) :
    ((init d0 a b c).1 = .error .VirtioLegacyOnly ∨
     (init d0 a b c).1 = .error .VirtioFeatureNegotiationFailed ∨
     (init d0 a b c).1 = .error .VirtioQueueTooSmall →
       (init d0 a b c).2.regs.status &&& 128 = 128) ∧
    ((init d0 a b c).1 = .error .VirtioMagicInvalid ∨
     (init d0 a b c).1 = .error .VirtioVersionInvalid ∨
     (init d0 a b c).1 = .error .VirtioUnsupportedDevice →
       noIoWrite (init d0 a b c).2.trace 0x70 = true) := by
  by_cases hm : U32 d0.magic = 0x74726976
  · by_cases hv : U32 d0.version = 2
    · by_cases hd : U32 d0.deviceType = 2
      · simp only [init]
        rw [probe_ok d0 [] hm hv hd, andThen_ok, resetAck_eq]
        by_cases hbit : feats d0 &&& (1 <<< 32) = 1 <<< 32
        · cases hacc : d0.featuresOkAccepted
          · rw [featureExchange_rejected _ _ (by rfl) (by rfl)
              (by exact hbit), andThen_error]
            exact ⟨fun _ => by simp [(by decide : (131 &&& 128 : Nat) = 128)],
              fun h => by simp at h⟩
          · rw [featureExchange_accepted _ _ (by rfl) (by rfl)
              (by exact hbit), andThen_ok]
            by_cases hq : U32 d0.queueMax < 16
            · rw [queueSetup_small _ _ _ _ _ (by rfl) (by rfl)
                (by exact hq), andThen_error]
              exact ⟨fun _ => by simp [(by decide : (139 &&& 128 : Nat) = 128)],
                fun h => by simp at h⟩
            · rw [queueSetup_ok _ _ _ _ _ (by exact hq), andThen_ok]
              exact ⟨fun h => by simp at h, fun h => by simp at h⟩
        · rw [featureExchange_legacy _ _ (by rfl) (by exact hbit),
            andThen_error]
          exact ⟨fun _ => by simp [(by decide : (131 &&& 128 : Nat) = 128)],
            fun h => by simp at h⟩
      · simp only [init]
        rw [probe_type_fail d0 [] hm hv hd, andThen_error]
        exact ⟨fun h => by simp at h, fun _ => rfl⟩
    · simp only [init]
      rw [probe_version_fail d0 [] hm hv, andThen_error]
      exact ⟨fun h => by simp at h, fun _ => rfl⟩
  · simp only [init]
    rw [probe_magic_fail d0 [] hm, andThen_error]
    exact ⟨fun h => by simp at h, fun _ => rfl⟩

/-- Witness for the amended C1 theorem at a legacy-only device and a
bad-magic device. -/
theorem init_failed_bit_witness :
    (init cfgLegacy 0 0 0).2.regs.status &&& 128 = 128 ∧
    noIoWrite (init cfgBadMagic 0 0 0).2.trace 0x70 = true :=
  ⟨(init_failed_bit cfgLegacy 0 0 0).1 (Or.inl rfl),
   (init_failed_bit cfgBadMagic 0 0 0).2 (Or.inl rfl)⟩

end VirtioBlock

namespace VirtioBlock

theorem add_status_driver_ok (d : DeviceRegs) (t : List Ev)
    (hst : d.status = 11) (hacc : d.featuresOkAccepted = true) :
    add_status ⟨d, t⟩ 4 = ⟨{ d with status := 15 },
      t ++ [Ev.ioRead 0x070 11, Ev.ioWrite 0x070 15]⟩ := by
  simp [add_status, get_status, set_status, io_read_u32, io_write_u32,
    readReg, writeReg, hst, hacc, (by decide : U32 11 = 11),
    (by decide : (11 ||| 4 : Nat) = 15), (by decide : U32 15 = 15)]

/-- Claim C5: past probe and feature negotiation, `init` reads the max queue
size after writing queue-select = 0; if it is below 16 it fails with
`VirtioQueueTooSmall`, sets FAILED and writes neither the queue-size nor
any queue-address register; otherwise it writes queue size 16, the three
queue addresses as low/high pairs and queue-ready = 1. -/
theorem init_queue_setup (d0 : DeviceRegs) (a b c : Nat)
    (hm : U32 d0.magic = 0x74726976) (hv : U32 d0.version = 2)
    (hd : U32 d0.deviceType = 2) (hacc : d0.featuresOkAccepted = true)
    (hbit : feats d0 &&& (1 <<< 32) = 1 <<< 32) :
    (U32 d0.queueMax < 16 →
        (init d0 a b c).1 = .error .VirtioQueueTooSmall ∧
        (init d0 a b c).2.regs.status &&& 128 = 128 ∧
        noIoWrite (init d0 a b c).2.trace 0x038 = true ∧
        noQueueAddrWrites (init d0 a b c).2.trace = true) ∧
    (¬ U32 d0.queueMax < 16 →
        (init d0 a b c).2.regs.queueSizeReg = 16 ∧
        (init d0 a b c).2.regs.descLow = U32 a ∧
        (init d0 a b c).2.regs.descHigh = U32 (a >>> 32) ∧
        (init d0 a b c).2.regs.availLow = U32 b ∧
        (init d0 a b c).2.regs.availHigh = U32 (b >>> 32) ∧
        (init d0 a b c).2.regs.usedLow = U32 c ∧
        (init d0 a b c).2.regs.usedHigh = U32 (c >>> 32) ∧
        (init d0 a b c).2.regs.queueReady = 1 ∧
        Ev.ioWrite 0x038 16 ∈ (init d0 a b c).2.trace ∧
        Ev.ioWrite 0x044 1 ∈ (init d0 a b c).2.trace) := by
  constructor
  · intro hq
    simp only [init]
    rw [probe_ok d0 [] hm hv hd, andThen_ok, resetAck_eq]
    rw [featureExchange_accepted _ _ (by rfl) (by exact hacc)
      (by exact hbit), andThen_ok]
    rw [queueSetup_small _ _ _ _ _ (by rfl) (by exact hacc)
      (by exact hq), andThen_error]
    refine ⟨rfl, ?_, ?_, ?_⟩
    · simp [(by decide : (139 &&& 128 : Nat) = 128)]
    · rfl
    · rfl
  · intro hq
    simp only [init]
    rw [probe_ok d0 [] hm hv hd, andThen_ok, resetAck_eq]
    rw [featureExchange_accepted _ _ (by rfl) (by exact hacc)
      (by exact hbit), andThen_ok]
    rw [queueSetup_ok _ _ _ _ _ (by exact hq), andThen_ok]
    rw [add_status_driver_ok _ _ (by rfl) (by exact hacc)]
    refine ⟨rfl, rfl, rfl, rfl, rfl, rfl, rfl, rfl, ?_, ?_⟩
    · simp
    · simp

/-- Witness for the C5 theorem at a small-queue device and a good
device. -/
theorem init_queue_setup_witness :
    ((init cfgSmallQueue 0 0 0).1 = .error .VirtioQueueTooSmall ∧
     (init cfgSmallQueue 0 0 0).2.regs.status &&& 128 = 128 ∧
     noIoWrite (init cfgSmallQueue 0 0 0).2.trace 0x038 = true ∧
     noQueueAddrWrites (init cfgSmallQueue 0 0 0).2.trace = true) ∧
    ((init cfgGood 7 8 9).2.regs.queueSizeReg = 16 ∧
     (init cfgGood 7 8 9).2.regs.queueReady = 1) :=
  ⟨(init_queue_setup cfgSmallQueue 0 0 0 (by decide) (by decide) (by decide)
      (by decide) (by decide)).1 (by decide),
   ⟨((init_queue_setup cfgGood 7 8 9 (by decide) (by decide) (by decide)
        (by decide) (by decide)).2 (by decide)).1,
    ((init_queue_setup cfgGood 7 8 9 (by decide) (by decide) (by decide)
        (by decide) (by decide)).2 (by decide)).2.2.2.2.2.2.2.1⟩⟩

end VirtioBlock

namespace VirtioBlock

/-- Claim C6: past the probe, if bit 32 of the assembled 64-bit feature bitmap
F is clear, `init` sets FAILED and returns `VirtioLegacyOnly` without
writing the driver-features registers; otherwise it writes back exactly F
(low half under select 0, high half under select 1), ORs in FEATURES_OK,
and fails with `VirtioFeatureNegotiationFailed` (after setting FAILED)
iff the re-read status lacks the FEATURES_OK bit (i.e. iff the device
rejects the negotiation). -/
theorem init_feature_exchange (d0 : DeviceRegs) (a b c : Nat)
    (hm : U32 d0.magic = 0x74726976) (hv : U32 d0.version = 2)
    (hd : U32 d0.deviceType = 2) :
    (feats d0 &&& (1 <<< 32) ≠ 1 <<< 32 →
        (init d0 a b c).1 = .error .VirtioLegacyOnly ∧
        (init d0 a b c).2.regs.status &&& 128 = 128 ∧
        noIoWrite (init d0 a b c).2.trace 0x020 = true ∧
        noIoWrite (init d0 a b c).2.trace 0x024 = true) ∧
    (feats d0 &&& (1 <<< 32) = 1 <<< 32 →
        (init d0 a b c).2.regs.driverFeatLow = U32 (feats d0) ∧
        (init d0 a b c).2.regs.driverFeatHigh = U32 (feats d0 >>> 32) ∧
        ((init d0 a b c).1 = .error .VirtioFeatureNegotiationFailed ↔
          d0.featuresOkAccepted = false) ∧
        (d0.featuresOkAccepted = false →
          (init d0 a b c).2.regs.status &&& 128 = 128)) := by
  constructor
  · intro hbit
    simp only [init]
    rw [probe_ok d0 [] hm hv hd, andThen_ok, resetAck_eq]
    rw [featureExchange_legacy _ _ (by rfl) (by exact hbit), andThen_error]
    refine ⟨rfl, ?_, rfl, rfl⟩
    simp [(by decide : (131 &&& 128 : Nat) = 128)]
  · intro hbit
    simp only [init]
    rw [probe_ok d0 [] hm hv hd, andThen_ok, resetAck_eq]
    cases hacc : d0.featuresOkAccepted
    · rw [featureExchange_rejected _ _ (by rfl) (by rfl)
        (by exact hbit), andThen_error]
      refine ⟨rfl, rfl, ?_, ?_⟩
      · simp
      · intro
        simp [(by decide : (131 &&& 128 : Nat) = 128)]
    · rw [featureExchange_accepted _ _ (by rfl) (by rfl)
        (by exact hbit), andThen_ok]
      by_cases hq : U32 d0.queueMax < 16
      · rw [queueSetup_small _ _ _ _ _ (by rfl) (by rfl)
          (by exact hq), andThen_error]
        refine ⟨rfl, rfl, ?_, ?_⟩
        · simp
        · intro h
          simp at h
      · rw [queueSetup_ok _ _ _ _ _ (by exact hq), andThen_ok]
        rw [add_status_driver_ok _ _ (by rfl) (by rfl)]
        refine ⟨rfl, rfl, ?_, ?_⟩
        · simp
        · intro h
          simp at h

/-- Witness for the C6 theorem at a legacy-only device and a
feature-rejecting device. -/
theorem init_feature_exchange_witness :
    ((init cfgLegacy 0 0 0).1 = .error .VirtioLegacyOnly ∧
     (init cfgLegacy 0 0 0).2.regs.status &&& 128 = 128 ∧
     noIoWrite (init cfgLegacy 0 0 0).2.trace 0x020 = true ∧
     noIoWrite (init cfgLegacy 0 0 0).2.trace 0x024 = true) ∧
    ((init cfgReject 0 0 0).1 = .error .VirtioFeatureNegotiationFailed ↔
      cfgReject.featuresOkAccepted = false) :=
  ⟨(init_feature_exchange cfgLegacy 0 0 0 (by decide) (by decide)
      (by decide)).1 (by decide),
   ((init_feature_exchange cfgReject 0 0 0 (by decide) (by decide)
      (by decide)).2 (by decide)).2.2.1⟩

end VirtioBlock

namespace VirtioBlock

/-- Claim C2: for every `read` call with a 512-byte buffer in which the
device completes the chain, the result is determined solely by the footer
status byte the device wrote: 0 yields `Ok`, 1 yields `BlockIOError`,
2 yields `BlockNotSupported`, and every other byte value also yields
`BlockNotSupported`. -/
theorem read_result_from_status (dev : VirtioMMIOBlockDevice) (env : ReadEnv)
    (sector : Nat) :
    (read dev env sector 512).1 = some (statusResult env.statusByte) := by
  simp only [read, statusResult]
  rcases e : env.statusByte % 256 with _ | _ | _ | n <;> simp [e]

/-- Claim C3: a `read` whose buffer length is not exactly 512 aborts at
the length assertion before any MMIO register access or any mutation of
the descriptor table, available ring or cursor (modelled as result
`none`, unchanged driver state and an empty trace); under the
precondition `data.len() = 512` the assertion always passes. -/
theorem read_length_assertion (dev : VirtioMMIOBlockDevice) (env : ReadEnv)
    (sector dataLen : Nat) :
    (dataLen ≠ 512 → read dev env sector dataLen = (none, dev, [])) ∧
    (dataLen = 512 → ((read dev env sector dataLen).1).isSome = true) := by
  constructor
  · intro h
    simp [read, h]
  · rintro rfl
    simp [read]

/-- Witness for the C3 theorem at buffer lengths 511 and 512. -/
theorem read_length_assertion_witness :
    read dev0 env0 0 511 = (none, dev0, []) ∧
    ((read dev0 env0 0 512).1).isSome = true :=
  ⟨(read_length_assertion dev0 env0 0 511).1 (by decide),
   (read_length_assertion dev0 env0 0 512).2 rfl⟩

theorem read_step_avail_idx (dev : VirtioMMIOBlockDevice) (env : ReadEnv)
    (sector : Nat) :
    ((read dev env sector 512).2.1).avail.idx = (dev.avail.idx + 1) % 65536 := by
  simp [read]

theorem read_step_next_head (dev : VirtioMMIOBlockDevice) (env : ReadEnv)
    (sector : Nat) :
    ((read dev env sector 512).2.1).next_head = (dev.next_head + 3) % 16 := by
  simp [read, idx16]

theorem readIter_avail_idx (env : ReadEnv) (sector : Nat) :
    ∀ (n : Nat) (dev : VirtioMMIOBlockDevice), dev.avail.idx < 65536 →
      (readIter env sector n dev).avail.idx = (dev.avail.idx + n) % 65536
  | 0, dev, h => by
      simp [readIter]
      omega
  | n + 1, dev, h => by
      rw [readIter]
      rw [readIter_avail_idx env sector n _
        (by rw [read_step_avail_idx]; omega)]
      rw [read_step_avail_idx]
      omega

theorem readIter_next_head (env : ReadEnv) (sector : Nat) :
    ∀ (n : Nat) (dev : VirtioMMIOBlockDevice), dev.next_head < 16 →
      (readIter env sector n dev).next_head = (dev.next_head + 3 * n) % 16
  | 0, dev, h => by
      simp [readIter]
      omega
  | n + 1, dev, h => by
      rw [readIter]
      rw [readIter_next_head env sector n _
        (by rw [read_step_next_head]; omega)]
      rw [read_step_next_head]
      omega

/-- Claim C7: every `read` writes the chain-head index into
available-ring slot `avail.idx mod 16` and increments `avail.idx` by
exactly one with wrapping 16-bit arithmetic; hence after `n` reads the
index equals its initial value plus `n` modulo 2^16, and starting from
the default state the `n`-th published entry uses ring slot
`n mod 16`. -/
theorem read_publish_invariant (env : ReadEnv) (sector : Nat) :
    (∀ dev : VirtioMMIOBlockDevice,
        ((read dev env sector 512).2.1).avail.idx = (dev.avail.idx + 1) % 65536 ∧
        ((read dev env sector 512).2.1).avail.ring (idx16 dev.avail.idx) =
          dev.next_head % 65536) ∧
    (∀ (dev : VirtioMMIOBlockDevice) (n : Nat), dev.avail.idx < 65536 →
        (readIter env sector n dev).avail.idx = (dev.avail.idx + n) % 65536) ∧
    (∀ n : Nat, (readIter env sector n dev0).avail.idx % 16 = n % 16) := by
  refine ⟨fun dev => ⟨read_step_avail_idx dev env sector, ?_⟩,
          fun dev n h => readIter_avail_idx env sector n dev h,
          fun n => ?_⟩
  · simp [read]
  · rw [readIter_avail_idx env sector n dev0 (by simp [dev0])]
    simp [dev0]
    omega

/-- Witness for the C7 theorem: five reads from the default state. -/
theorem read_publish_invariant_witness :
    (readIter env0 0 5 dev0).avail.idx = (dev0.avail.idx + 5) % 65536 :=
  (read_publish_invariant env0 0).2.1 dev0 5 (by decide)

theorem idx16_ne (m n : Nat) (h : m % 16 ≠ n % 16) : idx16 m ≠ idx16 n := by
  intro he
  exact h (congrArg Fin.val he)

/-- Claim C8: each `read` claims descriptor slots `next_head`,
`next_head + 1` and `next_head + 2` (mod 16) as its header/data/footer
chain — the first two flagged chained with `next` pointing at the
following slot, the third with the chain flag clear — and advances
`next_head` by exactly 3 modulo 16; consequently after 16 reads from the
default state the cursor has wrapped back to 0, so the 17th read's chain
occupies slots 0, 1, 2 of the descriptor table. -/
theorem read_chain_slots (env : ReadEnv) (sector : Nat) :
    (∀ dev : VirtioMMIOBlockDevice,
        ((read dev env sector 512).2.1).next_head = (dev.next_head + 3) % 16 ∧
        ((read dev env sector 512).2.1).descriptors (idx16 dev.next_head) =
          ⟨env.headerAddr, 16, 1, (dev.next_head + 1) % 16⟩ ∧
        ((read dev env sector 512).2.1).descriptors (idx16 (dev.next_head + 1)) =
          ⟨env.dataAddr, 512, 3, (dev.next_head + 2) % 16⟩ ∧
        ((read dev env sector 512).2.1).descriptors (idx16 (dev.next_head + 2)) =
          ⟨env.footerAddr, 1, 2, 0⟩) ∧
    (readIter env sector 16 dev0).next_head = 0 := by
  constructor
  · intro dev
    have hn2 : idx16 ((idx16 (dev.next_head + 1)).val + 1) =
        idx16 (dev.next_head + 2) := by
      apply Fin.ext
      show ((dev.next_head + 1) % 16 + 1) % 16 = (dev.next_head + 2) % 16
      omega
    have h01 : idx16 dev.next_head ≠ idx16 (dev.next_head + 1) :=
      idx16_ne _ _ (by omega)
    have h02 : idx16 dev.next_head ≠ idx16 (dev.next_head + 2) :=
      idx16_ne _ _ (by omega)
    have h12 : idx16 (dev.next_head + 1) ≠ idx16 (dev.next_head + 2) :=
      idx16_ne _ _ (by omega)
    refine ⟨read_step_next_head dev env sector, ?_, ?_, ?_⟩
    · simp only [read]
      rw [if_neg (by simp)]
      rw [hn2]
      dsimp only
      rw [Function.update_noteq h02, Function.update_noteq h01,
        Function.update_same]
      show Desc.mk _ _ _ ((idx16 (dev.next_head + 1)).val) = _
      simp [idx16]
    · simp only [read]
      rw [if_neg (by simp)]
      rw [hn2]
      dsimp only
      rw [Function.update_noteq h12, Function.update_same]
      show Desc.mk _ _ _ ((idx16 (dev.next_head + 2)).val) = _
      simp [idx16]
    · simp only [read]
      rw [if_neg (by simp)]
      rw [hn2]
      dsimp only
      rw [Function.update_same]
  · rw [readIter_next_head env sector 16 dev0 (by simp [dev0])]
    simp [dev0]

/-- Claim C9: the fence `read` issues between the available-ring slot
write and the `avail.idx` increment is an Acquire fence — not a fence
with release semantics as the claim states — while the poll loop does
issue an Acquire fence on every iteration; no Release fence occurs
anywhere in any read's trace. -/
theorem read_fence_trace :
    (read dev0 env3 0 512).2.2 =
      [Ev.memWrite (Loc.descAddr 0) 0, Ev.memWrite (Loc.descLen 0) 16,
       Ev.memWrite (Loc.descFlags 0) 1, Ev.memWrite (Loc.descNext 0) 1,
       Ev.memWrite (Loc.descAddr 1) 0, Ev.memWrite (Loc.descLen 1) 512,
       Ev.memWrite (Loc.descFlags 1) 3, Ev.memWrite (Loc.descNext 1) 2,
       Ev.memWrite (Loc.descAddr 2) 0, Ev.memWrite (Loc.descLen 2) 1,
       Ev.memWrite (Loc.descFlags 2) 2, Ev.memWrite (Loc.descNext 2) 0,
       Ev.memWrite (Loc.availRing 0) 0, Ev.fence MemOrd.Acquire,
       Ev.memWrite Loc.availIdx 1, Ev.memWrite Loc.nextHead 3,
       Ev.ioWrite 0x50 0, Ev.fence MemOrd.Acquire, Ev.fence MemOrd.Acquire,
       Ev.fence MemOrd.Acquire] ∧
    (∀ (dev : VirtioMMIOBlockDevice) (env : ReadEnv) (sector : Nat),
       ∀ e ∈ (read dev env sector 512).2.2, e ≠ Ev.fence MemOrd.Release) := by
  constructor
  · rfl
  · intro dev env sector e he hrel
    subst hrel
    revert he
    simp [read, List.mem_replicate]

/-- Claim C10: the driver never writes the used ring — a `read` leaves
`used` untouched and its trace has no write to any used-ring field — and
mutates only the three claimed descriptor slots, the single
available-ring slot `avail.idx mod 16`, `avail.idx` and `next_head`,
leaving every other descriptor entry and available-ring slot
unchanged. -/
theorem read_frame (dev : VirtioMMIOBlockDevice) (env : ReadEnv) (sector : Nat) :
    ((read dev env sector 512).2.1).used = dev.used ∧
    ((read dev env sector 512).2.1).avail.flags = dev.avail.flags ∧
    (∀ i : Fin 16, i ≠ idx16 dev.next_head → i ≠ idx16 (dev.next_head + 1) →
        i ≠ idx16 (dev.next_head + 2) →
        ((read dev env sector 512).2.1).descriptors i = dev.descriptors i) ∧
    (∀ i : Fin 16, i ≠ idx16 dev.avail.idx →
        ((read dev env sector 512).2.1).avail.ring i = dev.avail.ring i) ∧
    noUsedWrites (read dev env sector 512).2.2 = true := by
  have hn2 : idx16 ((idx16 (dev.next_head + 1)).val + 1) =
      idx16 (dev.next_head + 2) := by
    apply Fin.ext
    show ((dev.next_head + 1) % 16 + 1) % 16 = (dev.next_head + 2) % 16
    omega
  refine ⟨by simp [read], by simp [read], ?_, ?_, ?_⟩
  · intro i h0 h1 h2
    simp only [read]
    rw [if_neg (by simp)]
    rw [hn2]
    dsimp only
    rw [Function.update_noteq h2, Function.update_noteq h1,
      Function.update_noteq h0]
  · intro i h
    simp only [read]
    rw [if_neg (by simp)]
    dsimp only
    rw [Function.update_noteq h]
  · simp only [read]
    rw [if_neg (by simp)]
    dsimp only
    simp only [noUsedWrites, List.all_append, Bool.and_eq_true]
    constructor
    · rfl
    · simp [List.all_eq_true]

/-- Witness for the C10 theorem at untouched slots 5 and 7. -/
theorem read_frame_witness :
    ((read dev0 env0 0 512).2.1).descriptors (5 : Fin 16) =
      dev0.descriptors (5 : Fin 16) ∧
    ((read dev0 env0 0 512).2.1).avail.ring (7 : Fin 16) =
      dev0.avail.ring (7 : Fin 16) :=
  ⟨(read_frame dev0 env0 0).2.2.1 (5 : Fin 16) (by decide) (by decide) (by decide),
   (read_frame dev0 env0 0).2.2.2.1 (7 : Fin 16) (by decide)⟩

end VirtioBlock
